import Mathlib

/-!
Shallow embedding of `ryxcommar/dispatchlib` (files `dispatchlib/core.py`
and `dispatchlib/types.py`).

The library is a predicate-ordered dispatch engine.  Python exceptions are
modelled with an explicit error type, Python dictionaries of keyword
arguments as association lists, and Python callables as Lean functions
returning `Except`.  The two dispatcher loops (`dispatch.dynamic_dispatcher`,
core.py lines 209-218, and `metadispatch.dynamic_dispatcher`, core.py lines
43-55) are translated one to one; external facilities used by the source
(`inspect.signature`, `typing.ForwardRef`, `typeguard.check_type`,
`importlib.import_module`, `os.path.splitext`) are modelled as explicit
parameters or small helper functions, each documented at its definition.
-/

/-- Python exceptions that the source raises or catches.  `nextDispatch`
models the `NextDispatch` class of `dispatchlib/types.py` (the Continuation
Signal); the remaining constructors model the builtin exceptions the code
can raise (`IndexError` from `args[0]` on an empty tuple and from
`list(...)[0]`, `TypeError` for configuration errors and non-callable
values, `ImportError`/`AttributeError` from dynamic import). -/
inductive PyExc where
  | nextDispatch
  | indexError
  | typeError (msg : String)
  | importError
  | attributeError
  | other (msg : String)
deriving DecidableEq, Repr

/-- A registered candidate, modelling class `DispatchedCallable` of
`dispatchlib/types.py` (lines 109-126): a wrapped implementation `func`, a
predicate `validate` and an integer `priority`.  The extra field `params`
records the declared parameter names of the wrapped implementation: the
source recovers them reflectively via `inspect.signature(f).parameters`
(which resolves to the wrapped function because `FunctionMixin` proxies
`__code__`, `__name__`, `__defaults__`, `__kwdefaults__` and
`__annotations__`), and Lean functions are opaque, so the names are carried
as data.  `α` is the type of positional-argument values, `κ` the type of
keyword-argument values, `β` the type of results; a Python return value of
`None` is `none`. -/
structure DispatchedCallable (α κ β : Type) where
  func : List α → List (String × κ) → Except PyExc (Option β)
  validate : α → Except PyExc Bool
  priority : Int
  params : List String

/-- The keyword arguments actually forwarded by
`metadispatch.dynamic_dispatcher` (core.py lines 49-51):
`_kwargs = kwargs.copy()`, and `_kwargs.pop('_globals', None)` when the
candidate does not declare a `_globals` parameter. -/
def stripKwargs {α κ β : Type} (f : DispatchedCallable α κ β)
    (kwargs : List (String × κ)) : List (String × κ) :=
  if f.params.contains ("_globals") then kwargs
  else kwargs.filter (fun kv => kv.1 != "_globals")

/-- The call loop of an engine built by `dispatch`
(`dispatch.dynamic_dispatcher`, core.py lines 209-218):

```python
for f in registry:
    try:
        if f.validate(args[0]):
            res = f(*args, **kwargs)
            return res
    except NextDispatch:
        continue
```

`args[0]` on an empty argument tuple raises `IndexError`, which is not a
`NextDispatch` and therefore propagates; exhausting the registry falls off
the function body and returns `None`.  The `try` block covers both the
predicate and the implementation, so a `NextDispatch` raised by either one
continues to the next candidate, while any other exception propagates. -/
def dynamicDispatcher {α κ β : Type} (registry : List (DispatchedCallable α κ β))
    (args : List α) (kwargs : List (String × κ)) : Except PyExc (Option β) :=
  match registry with
  | [] => .ok none
  | f :: rest =>
    match args.head? with
    | none => .error .indexError
    | some a0 =>
      match f.validate a0 with
      | .ok true =>
        match f.func args kwargs with
        | .ok res => .ok res
        | .error e =>
          if e = PyExc.nextDispatch then dynamicDispatcher rest args kwargs
          else .error e
      | .ok false => dynamicDispatcher rest args kwargs
      | .error e =>
        if e = PyExc.nextDispatch then dynamicDispatcher rest args kwargs
        else .error e

/-- The call loop of an engine built by `metadispatch`
(`metadispatch.dynamic_dispatcher`, core.py lines 43-55).  Identical to
`dynamicDispatcher` except that before invoking the implementation it
removes the reserved `_globals` keyword argument unless the candidate
declares a parameter of that name (lines 49-51, here `stripKwargs`). -/
def metaDynamicDispatcher {α κ β : Type} (registry : List (DispatchedCallable α κ β))
    (args : List α) (kwargs : List (String × κ)) : Except PyExc (Option β) :=
  match registry with
  | [] => .ok none
  | f :: rest =>
    match args.head? with
    | none => .error .indexError
    | some a0 =>
      match f.validate a0 with
      | .ok true =>
        match f.func args (stripKwargs f kwargs) with
        | .ok res => .ok res
        | .error e =>
          if e = PyExc.nextDispatch then metaDynamicDispatcher rest args kwargs
          else .error e
      | .ok false => metaDynamicDispatcher rest args kwargs
      | .error e =>
        if e = PyExc.nextDispatch then metaDynamicDispatcher rest args kwargs
        else .error e

/-- `sys.maxsize` of a 64-bit CPython, the reserved sentinel priority used
for the auto-installed fallback (core.py line 224). -/
def sysMaxsize : Int := 2 ^ 63 - 1

/-- `_determine_priority` (core.py lines 24-31): an explicit priority is
used verbatim; otherwise the result is one more than the maximum priority
strictly below `sys.maxsize` among registered candidates, with the `max` of
an empty generator (a `ValueError` in Python) caught and replaced by -1. -/
def determinePriority {α κ β : Type} (registry : List (DispatchedCallable α κ β))
    (priority : Option Int) : Int :=
  match priority with
  | some p => p
  | none =>
    let maxPrio :=
      match ((registry.map (fun f => f.priority)).filter
          (fun p => decide (p < sysMaxsize))).max? with
      | some m => m
      | none => -1
    maxPrio + 1

/-- The default-priority rule in the words of the specification (spec §4.1):
`maxP` is the maximum priority among candidates whose priority is **not**
the reserved sentinel, `-1` when no such candidate exists, and the resolved
priority is `maxP + 1`.  Stated from the spec for comparison with
`determinePriority`, which is translated from the source. -/
def resolvePrioritySpec {α κ β : Type}
    (registry : List (DispatchedCallable α κ β)) : Int :=
  let maxP :=
    match ((registry.map (fun f => f.priority)).filter
        (fun p => p != sysMaxsize)).max? with
    | some m => m
    | none => -1
  maxP + 1

/-- `SortedKeyList.add` with `key=lambda f: f.priority` (the registries of
core.py lines 41 and 177 are `SortedKeyList`s): insert before the first
candidate of strictly greater priority, i.e. after all candidates of equal
priority (`sortedcontainers` inserts with `bisect_right`), which preserves
registration order among equal priorities. -/
def sortedAdd {α κ β : Type} (registry : List (DispatchedCallable α κ β))
    (c : DispatchedCallable α κ β) : List (DispatchedCallable α κ β) :=
  match registry with
  | [] => [c]
  | x :: xs =>
    if c.priority < x.priority then c :: x :: xs
    else x :: sortedAdd xs c

/-- A candidate that the `dispatch` loop passes over for first argument
`a0`: its predicate returns false, or its predicate raises the Continuation
Signal, or its predicate returns true and its implementation raises the
Continuation Signal. -/
def skipsDispatch {α κ β : Type} (g : DispatchedCallable α κ β)
    (args : List α) (kwargs : List (String × κ)) (a0 : α) : Prop :=
  g.validate a0 = .ok false ∨ g.validate a0 = .error .nextDispatch ∨
    (g.validate a0 = .ok true ∧ g.func args kwargs = .error .nextDispatch)

/-- A candidate that the `metadispatch` loop passes over: as
`skipsDispatch`, but the implementation receives the stripped keyword
arguments. -/
def skipsMeta {α κ β : Type} (g : DispatchedCallable α κ β)
    (args : List α) (kwargs : List (String × κ)) (a0 : α) : Prop :=
  g.validate a0 = .ok false ∨ g.validate a0 = .error .nextDispatch ∨
    (g.validate a0 = .ok true ∧ g.func args (stripKwargs g kwargs) = .error .nextDispatch)

/-- A Python class, as far as the dispatch library observes one: an identity
`tid`, the set of ancestor identities `mro` (method resolution order,
containing `tid` itself), and the textual representation `reprStr` that
`repr(type(x))` produces. -/
structure PyType where
  tid : Nat
  mro : List Nat
  reprStr : String
deriving DecidableEq, Repr

/-- A Python value, observed only through its runtime class. -/
structure PyVal where
  type : PyType
deriving DecidableEq, Repr

/-- `isinstance(x, T)`: true when `T` is the class of `x` or one of its
ancestors, i.e. when `T` appears in the method resolution order of the
class of `x`. -/
def isinstance (x : PyVal) (T : PyType) : Bool :=
  x.type.mro.contains T.tid

/-- A compiled predicate over Python values; it may raise (builder 4 of the
Check Compiler raises on import failure). -/
def PyChecker : Type := PyVal → Except PyExc Bool

/-- A name-resolution scope, modelling the `_globals` dictionary combined
with `typing.ForwardRef(val)._evaluate(_globals, {})`: a name string either
resolves to a class or fails with `NameError` (`none`). -/
def PyScope : Type := String → Option PyType

/-- The scope in which no name resolves, i.e. resolution over an empty
`_globals` dictionary for names that are not builtins. -/
def emptyScope : PyScope := fun _ => none

/-- The dynamic-import facility (`importlib.import_module` plus `getattr`):
a module path optionally yields a module, and an attribute name optionally
yields a class in it.  `none` stands for `ImportError` respectively
`AttributeError`. -/
def ImportTable : Type := String → Option (String → Option PyType)

/-- A parameterized generic type (an instance of `typing._GenericAlias`),
observed through the verdict of the external structural checker
`typeguard.check_type` (`check` is that verdict: true when no `TypeError`
is raised). -/
structure GenericAlias where
  check : PyVal → Bool

/-- A check specification, the tagged union of the values the Check
Compiler accepts: a plain class, a parameterized generic type, a name
string, or any other callable used directly as a predicate. -/
inductive CheckSpec where
  | pytype (T : PyType)
  | genericAlias (g : GenericAlias)
  | str (s : String)
  | callablePred (p : PyChecker)

/-- Guard of builder 100: `lambda c: isinstance(c, type)` (core.py line 94). -/
def isTypeSpec : CheckSpec → Bool
  | .pytype _ => true
  | _ => false

/-- Guard of builder 101: `lambda val: isinstance(val, _GenericAlias)`
(core.py line 102). -/
def isGenericAliasSpec : CheckSpec → Bool
  | .genericAlias _ => true
  | _ => false

/-- Guard of builders 102 and 103: `lambda val: isinstance(val, str)`
(core.py lines 116 and 129). -/
def isStrSpec : CheckSpec → Bool
  | .str _ => true
  | _ => false

/-- Guard of builder 104: `lambda val: callable(val)` (core.py line 144).
Classes and generic aliases are callable in Python; strings are not. -/
def isCallableSpec : CheckSpec → Bool
  | .str _ => false
  | _ => true

/-- The value builder 104 returns: the specification itself, viewed as a
predicate.  Only the plain-callable case is reachable through the default
Check Compiler, because the guards at priorities 100-102 intercept classes,
generic aliases and strings first; in Python the other branches would
return the object itself, whose use as a predicate then calls a
constructor, which this model represents as an opaque raise. -/
def CheckSpec.asPred : CheckSpec → PyChecker
  | .callablePred p => p
  | .pytype _ => fun _ => .error (.other ("class constructor used as predicate"))
  | .genericAlias _ => fun _ => .error (.other ("generic alias used as predicate"))
  | .str _ => fun _ => .error (.typeError ("str object is not callable"))

/-- Whether `p` is a prefix of `s`, character by character. -/
def charsPre : List Char → List Char → Bool
  | [], _ => true
  | _ :: _, [] => false
  | a :: p1, b :: s1 => a == b && charsPre p1 s1

/-- Whether `sub` occurs contiguously inside `s`; `pyIn sub s` models
`s.find(sub) != -1`. -/
def charsContain (s sub : List Char) : Bool :=
  match s with
  | [] => sub.isEmpty
  | _ :: t => if charsPre sub s then true else charsContain t sub

/-- `s.find(sub) != -1` on Python strings. -/
def pyIn (sub s : String) : Bool :=
  charsContain s.data sub.data

/-- Split a character list at its last dot: `some (root, rest)` when a dot
occurs, where the dot itself is dropped. -/
def splitAtLastDot : List Char → Option (List Char × List Char)
  | [] => none
  | c :: t =>
    match splitAtLastDot t with
    | some (a, b) => some (c :: a, b)
    | none => if c == '.' then some ([], t) else none

/-- `os.path.splitext` as used on dotted module paths (core.py line 134):
`splitext ("a.b.C") = ("a.b", ".C")`, and a dotless string keeps an empty
extension.  The stdlib special cases for path separators and leading dots
are irrelevant to module-path inputs and are not modelled. -/
def splitext (s : String) : String × String :=
  match splitAtLastDot s.data with
  | some (root, ext) => (String.mk root, String.mk ('.' :: ext))
  | none => (s, "")

/-- `modname.split('.')[0]`: the first dot-separated segment. -/
def firstSegment : List Char → List Char
  | [] => []
  | c :: t => if c == '.' then [] else c :: firstSegment t

/-- The checker closure produced by `create_checker_import_via_str`
(core.py lines 133-141):

```python
def checker(x):
    modname, typename = os.path.splitext(val)
    packagename = modname.split('.')[0]
    if repr(type(x)).find(packagename) == -1:
        return False
    mod = importlib.import_module(modname)
    target_type = getattr(mod, typename[1:])
    return isinstance(x, target_type)
```
-/
def importViaStrChecker (imp : ImportTable) (val : String) : PyChecker := fun x =>
  let pr := splitext val
  let packagename := String.mk (firstSegment pr.1.data)
  if pyIn packagename x.type.reprStr = false then .ok false
  else
    match imp pr.1 with
    | none => .error .importError
    | some mod =>
      match mod (pr.2.drop 1) with
      | none => .error .attributeError
      | some targetType => .ok (isinstance x targetType)

/-- Implementation of builder 100, `create_checker_type` (core.py lines
96-100): a checker testing `isinstance(x, val)`.  A non-class reaching the
isinstance call would raise `TypeError` in Python; unreachable past the
guard of builder 100. -/
def create_checker_type_fn (args : List CheckSpec) (_kw : List (String × PyScope)) :
    Except PyExc (Option PyChecker) :=
  match args.head? with
  | none => .error .indexError
  | some (.pytype T) => .ok (some (fun x => .ok (isinstance x T)))
  | some _ => .ok (some (fun _ => .error (.typeError ("isinstance arg 2 must be a type"))))

/-- Implementation of builder 101, `create_checker_generic_alias` (core.py
lines 104-113): a checker returning the verdict of `typeguard.check_type`
(`TypeError` caught and mapped to false, otherwise true — carried here as
the `check` field of the alias). -/
def create_checker_generic_alias_fn (args : List CheckSpec) (_kw : List (String × PyScope)) :
    Except PyExc (Option PyChecker) :=
  match args.head? with
  | none => .error .indexError
  | some (.genericAlias g) => .ok (some (fun x => .ok (g.check x)))
  | some _ => .ok (some (fun _ => .error (.typeError ("not a generic alias"))))

/-- Implementation of builder 102, `create_checker_forward_ref` (core.py
lines 118-127): resolve the name in the `_globals` scope (defaulting to the
empty scope when the keyword is absent, as `_globals = _globals or {}`); on
success return an isinstance checker, on `NameError` raise the Continuation
Signal. -/
def create_checker_forward_ref_fn (args : List CheckSpec) (kw : List (String × PyScope)) :
    Except PyExc (Option PyChecker) :=
  match args.head? with
  | none => .error .indexError
  | some (.str v) =>
    let g := (List.lookup ("_globals") kw).getD emptyScope
    match g v with
    | some targetType => .ok (some (fun x => .ok (isinstance x targetType)))
    | none => .error .nextDispatch
  | some _ => .error (.typeError ("ForwardRef expects a string"))

/-- Implementation of builder 103, `create_checker_import_via_str` (core.py
lines 131-142): return the import-based checker closure; the builder itself
never fails, all failure is deferred to the checker. -/
def create_checker_import_via_str_fn (imp : ImportTable) (args : List CheckSpec)
    (_kw : List (String × PyScope)) : Except PyExc (Option PyChecker) :=
  match args.head? with
  | none => .error .indexError
  | some (.str v) => .ok (some (importViaStrChecker imp v))
  | some _ => .ok (some (fun _ => .error (.typeError ("splitext expects a string"))))

/-- Implementation of builder 104, `create_checker_generic_callable`
(core.py lines 146-148): return the specification unchanged. -/
def create_checker_generic_callable_fn (args : List CheckSpec)
    (_kw : List (String × PyScope)) : Except PyExc (Option PyChecker) :=
  match args.head? with
  | none => .error .indexError
  | some spec => .ok (some spec.asPred)

/-- A candidate of the Check Compiler engine. -/
abbrev MCand : Type := DispatchedCallable CheckSpec PyScope PyChecker

/-- `metadispatch.register(check_func, priority)._wrap` (core.py lines
60-78): build a `DispatchedCallable` with the priority resolved by
`_determine_priority` against the current registry and add it with
`SortedKeyList.add`.  The `FunctionMixin` unwrapping of line 69-70 only
matters for stacked decorations and is not modelled. -/
def metaRegister (registry : List MCand) (checkFunc : CheckSpec → Except PyExc Bool)
    (priority : Option Int) (params : List String)
    (func : List CheckSpec → List (String × PyScope) → Except PyExc (Option PyChecker)) :
    List MCand :=
  sortedAdd registry
    { func := func
      validate := checkFunc
      priority := determinePriority registry priority
      params := params }

/-- `create_default_metadispatcher` (core.py lines 91-150): the Check
Compiler, a metadispatch engine seeded with the five builders at explicit
priorities 100-104.  The declared parameter lists mirror the Python
signatures: only `create_checker_forward_ref` declares `_globals`. -/
def create_default_metadispatcher (imp : ImportTable) : List MCand :=
  metaRegister (metaRegister (metaRegister (metaRegister (metaRegister []
    (fun c => .ok (isTypeSpec c)) (some 100) ["val"] create_checker_type_fn)
    (fun c => .ok (isGenericAliasSpec c)) (some 101) ["val"] create_checker_generic_alias_fn)
    (fun c => .ok (isStrSpec c)) (some 102) ["val", "_globals"] create_checker_forward_ref_fn)
    (fun c => .ok (isStrSpec c)) (some 103) ["val"] (create_checker_import_via_str_fn imp))
    (fun c => .ok (isCallableSpec c)) (some 104) ["val"] create_checker_generic_callable_fn

/-- One call of the default Check Compiler, as `dispatch.register` performs
it: `metadispatcher(check, _globals=func.__globals__)` (core.py lines
200-201). -/
def compileCheck (imp : ImportTable) (spec : CheckSpec) (scope : PyScope) :
    Except PyExc (Option PyChecker) :=
  metaDynamicDispatcher (create_default_metadispatcher imp) [spec] [("_globals", scope)]

/-- A candidate of a user-facing engine built by `dispatch`: positional
arguments, keyword arguments and results are all Python values. -/
abbrev UCand : Type := DispatchedCallable PyVal PyVal PyVal

/-- The implementation being registered on a `dispatch` engine, observed
through what `dispatch.register._wrap` consults: its declared parameter
names, the declared annotation of each parameter (`none` models
`inspect._empty`), its defining module scope `__globals__`, and its body. -/
structure PyFunc where
  paramNames : List String
  paramAnnotations : List (Option CheckSpec)
  globalsScope : PyScope
  body : List PyVal → List (String × PyVal) → Except PyExc (Option PyVal)

/-- The configuration-error message of core.py lines 193-197. -/
def cfgMsg : String :=
  "You need to either register a type, or have a type annotation in the first arg of the decorated function."

/-- The predicate a compiled check becomes when stored as `validate`
(core.py line 200): the compiler result itself when a builder produced one;
when the compiler fell through and returned `None`, calling it raises
`TypeError` at dispatch time. -/
def validateOf (chk : Option PyChecker) : PyChecker := fun v =>
  match chk with
  | some c => c v
  | none => .error (.typeError ("NoneType object is not callable"))

/-- Apply the outcome of a compiler call to a value, the way a `dispatch`
engine applies `f.validate(args[0])`: a compiler failure propagates, an
absent compiler result is a non-callable `validate`. -/
def runCompiled (out : Except PyExc (Option PyChecker)) (x : PyVal) : Except PyExc Bool :=
  match out with
  | .error e => .error e
  | .ok chk => validateOf chk x

/-- `dispatch.register(check, priority)._wrap(func)` (core.py lines
179-205): when `check` is omitted, read the annotation of the first
declared parameter (`list(...)[0]` raises `IndexError` when there is no
parameter, and an empty annotation raises the configuration `TypeError`);
compile the check through the metadispatcher, passing the defining scope as
`_globals`; build the `DispatchedCallable` with `_determine_priority` and
add it to the registry.  The `DispatchedCallable` unwrapping of lines
188-189 only matters for stacked decorations and is not modelled. -/
def registerWrap (metaReg : List MCand) (registry : List UCand)
    (check : Option CheckSpec) (priority : Option Int) (f : PyFunc) :
    Except PyExc (List UCand) :=
  let resolved : Except PyExc CheckSpec :=
    match check with
    | some c => .ok c
    | none =>
      match f.paramAnnotations.head? with
      | none => .error .indexError
      | some none => .error (.typeError cfgMsg)
      | some (some ann) => .ok ann
  match resolved with
  | .error e => .error e
  | .ok spec =>
    match metaDynamicDispatcher metaReg [spec] [("_globals", f.globalsScope)] with
    | .error e => .error e
    | .ok chk =>
      .ok (sortedAdd registry
        { func := f.body
          validate := validateOf chk
          priority := determinePriority registry priority
          params := f.paramNames })

/-- The always-true wildcard predicate `lambda x: True` that `dispatch`
registers for the fallback (core.py line 224). -/
def pyTrue : PyChecker := fun _ => .ok true

/-- The candidate that the fallback auto-registration
`dynamic_dispatcher.register(lambda x: True, priority=sys.maxsize)(base_func)`
(core.py line 224) installs: the base function guarded by the wildcard
predicate at the sentinel priority. -/
def fallbackCandidate (b : PyFunc) : UCand :=
  { func := b.body
    validate := pyTrue
    priority := sysMaxsize
    params := b.paramNames }

/-- An import facility in which no module is importable. -/
def impNone : ImportTable := fun _ => none

/-- A class `T` of module `m`, with the textual representation CPython
would print for it. -/
def tyT : PyType := { tid := 0, mro := [0], reprStr := "<class m.T>" }

/-- A class `S` of a different module `other`, subclassing `T`: its method
resolution order contains `tyT`, but its textual representation does not
contain the package segment `m`. -/
def tyS : PyType := { tid := 1, mro := [1, 0], reprStr := "<class other.S>" }

/-- A direct instance of `T`. -/
def valT : PyVal := { type := tyT }

/-- An instance of the subclass `S` of `T`. -/
def valS : PyVal := { type := tyS }

/-- An import facility in which module `m` is importable and exposes the
class `T` under the attribute name `T`. -/
def impTableMT : ImportTable := fun m =>
  if m = "m" then some (fun a => if a = "T" then some tyT else none) else none

/-- A probe candidate for observing forwarded keyword arguments: it matches
every value and returns the keyword arguments it received as its result. -/
def kwProbeCand : DispatchedCallable Nat Nat (List (String × Nat)) :=
  { func := fun _ kwargs => .ok (some kwargs)
    validate := fun _ => .ok true
    priority := 0
    params := [] }

/-- An implementation that declares no parameters at all: registering it
without an explicit check makes `list(...)[0]` fail. -/
def noParamFunc : PyFunc :=
  { paramNames := []
    paramAnnotations := []
    globalsScope := emptyScope
    body := fun _ _ => .ok none }

/-- A candidate at priority 0 whose predicate always returns false. -/
def candFalse0 : DispatchedCallable Nat Nat String :=
  { func := fun _ _ => .ok none
    validate := fun _ => .ok false
    priority := 0
    params := [] }

/-- A candidate at priority 1 whose predicate always returns true and whose
implementation returns the string X. -/
def candTrueX1 : DispatchedCallable Nat Nat String :=
  { func := fun _ _ => .ok (some ("X"))
    validate := fun _ => .ok true
    priority := 1
    params := [] }

/-- A candidate at priority 0 whose predicate always returns true and whose
implementation raises the Continuation Signal. -/
def candDecline0 : DispatchedCallable Nat Nat String :=
  { func := fun _ _ => .error .nextDispatch
    validate := fun _ => .ok true
    priority := 0
    params := [] }

/-- A candidate at priority 1 whose predicate always returns true and whose
implementation returns the string Y. -/
def candTrueY1 : DispatchedCallable Nat Nat String :=
  { func := fun _ _ => .ok (some ("Y"))
    validate := fun _ => .ok true
    priority := 1
    params := [] }

theorem dispatch_cons_skip {α κ β : Type} (g : DispatchedCallable α κ β)
    (rest : List (DispatchedCallable α κ β)) (args : List α)
    (kwargs : List (String × κ)) (a0 : α) (h0 : args.head? = some a0)
    (hg : skipsDispatch g args kwargs a0) :
    dynamicDispatcher (g :: rest) args kwargs = dynamicDispatcher rest args kwargs := by
  rcases hg with h | h | ⟨h1, h2⟩
  · simp [dynamicDispatcher, h0, h]
  · simp [dynamicDispatcher, h0, h]
  · simp [dynamicDispatcher, h0, h1, h2]

theorem meta_cons_skip {α κ β : Type} (g : DispatchedCallable α κ β)
    (rest : List (DispatchedCallable α κ β)) (args : List α)
    (kwargs : List (String × κ)) (a0 : α) (h0 : args.head? = some a0)
    (hg : skipsMeta g args kwargs a0) :
    metaDynamicDispatcher (g :: rest) args kwargs = metaDynamicDispatcher rest args kwargs := by
  rcases hg with h | h | ⟨h1, h2⟩
  · simp [metaDynamicDispatcher, h0, h]
  · simp [metaDynamicDispatcher, h0, h]
  · simp [metaDynamicDispatcher, h0, h1, h2]

theorem dispatch_never_next {α κ β : Type} (reg : List (DispatchedCallable α κ β))
    (args : List α) (kwargs : List (String × κ)) :
    dynamicDispatcher reg args kwargs ≠ .error .nextDispatch := by
  induction reg with
  | nil => simp [dynamicDispatcher]
  | cons f rest ih =>
    simp only [dynamicDispatcher]
    cases h0 : args.head? with
    | none => simp
    | some a0 =>
      cases hv : f.validate a0 with
      | error e => by_cases he : e = PyExc.nextDispatch <;> simp [hv, he, ih]
      | ok b =>
        cases b with
        | false => simpa [hv] using ih
        | true =>
          cases hfn : f.func args kwargs with
          | ok res => simp [hv, hfn]
          | error e => by_cases he : e = PyExc.nextDispatch <;> simp [hv, hfn, he, ih]

theorem meta_never_next {α κ β : Type} (reg : List (DispatchedCallable α κ β))
    (args : List α) (kwargs : List (String × κ)) :
    metaDynamicDispatcher reg args kwargs ≠ .error .nextDispatch := by
  induction reg with
  | nil => simp [metaDynamicDispatcher]
  | cons f rest ih =>
    simp only [metaDynamicDispatcher]
    cases h0 : args.head? with
    | none => simp
    | some a0 =>
      cases hv : f.validate a0 with
      | error e => by_cases he : e = PyExc.nextDispatch <;> simp [hv, he, ih]
      | ok b =>
        cases b with
        | false => simpa [hv] using ih
        | true =>
          cases hfn : f.func args (stripKwargs f kwargs) with
          | ok res => simp [hv, hfn]
          | error e => by_cases he : e = PyExc.nextDispatch <;> simp [hv, hfn, he, ih]

theorem dispatch_all_skip {α κ β : Type} (reg : List (DispatchedCallable α κ β))
    (args : List α) (kwargs : List (String × κ)) (a0 : α)
    (h0 : args.head? = some a0) (hall : ∀ g ∈ reg, skipsDispatch g args kwargs a0) :
    dynamicDispatcher reg args kwargs = .ok none := by
  induction reg with
  | nil => simp [dynamicDispatcher]
  | cons f rest ih =>
    rw [dispatch_cons_skip f rest args kwargs a0 h0 (hall f (by simp))]
    exact ih (fun g hg => hall g (by simp [hg]))

theorem meta_all_skip {α κ β : Type} (reg : List (DispatchedCallable α κ β))
    (args : List α) (kwargs : List (String × κ)) (a0 : α)
    (h0 : args.head? = some a0) (hall : ∀ g ∈ reg, skipsMeta g args kwargs a0) :
    metaDynamicDispatcher reg args kwargs = .ok none := by
  induction reg with
  | nil => simp [metaDynamicDispatcher]
  | cons f rest ih =>
    rw [meta_cons_skip f rest args kwargs a0 h0 (hall f (by simp))]
    exact ih (fun g hg => hall g (by simp [hg]))

/-- C1: for an engine built by `dispatch` or by `metadispatch` whose
registry is in ascending priority order, a call returns the result of the
first candidate whose predicate returns true and whose implementation does
not raise the Continuation Signal; the result — including an absent `None`
result — is returned as is, and the candidates after the accepting one do
not influence the outcome in any way (the conclusion holds for every
`rest`), so their predicates and implementations are never consulted. -/
theorem call_returns_first_accepted_candidate {α κ β : Type}
    (pre rest : List (DispatchedCallable α κ β)) (f : DispatchedCallable α κ β)
    (args : List α) (kwargs : List (String × κ)) (a0 : α) (r r' : Option β)
    (hsorted : (pre ++ f :: rest).Pairwise (fun a b => a.priority ≤ b.priority))
    (h0 : args.head? = some a0)
    (hpreD : ∀ g ∈ pre, skipsDispatch g args kwargs a0)
    (hpreM : ∀ g ∈ pre, skipsMeta g args kwargs a0)
    (hf : f.validate a0 = .ok true)
    (hrD : f.func args kwargs = .ok r)
    (hrM : f.func args (stripKwargs f kwargs) = .ok r') :
    dynamicDispatcher (pre ++ f :: rest) args kwargs = .ok r
    ∧ metaDynamicDispatcher (pre ++ f :: rest) args kwargs = .ok r' := by
  constructor
  · clear hsorted hpreM
    induction pre with
    | nil => simp [dynamicDispatcher, h0, hf, hrD]
    | cons g t ih =>
      rw [List.cons_append,
        dispatch_cons_skip g _ args kwargs a0 h0 (hpreD g (by simp))]
      exact ih (fun x hx => hpreD x (by simp [hx]))
  · clear hsorted hpreD
    induction pre with
    | nil => simp [metaDynamicDispatcher, h0, hf, hrM]
    | cons g t ih =>
      rw [List.cons_append,
        meta_cons_skip g _ args kwargs a0 h0 (hpreM g (by simp))]
      exact ih (fun x hx => hpreM x (by simp [hx]))

/-- Witness for C1 at the example of the claim: a candidate at priority 0
with an always-false predicate followed by a candidate at priority 1
returning X; both engine flavors return X. -/
theorem call_returns_first_accepted_candidate_witness :
    dynamicDispatcher ([candFalse0] ++ candTrueX1 :: []) [5] [] = .ok (some ("X"))
    ∧ metaDynamicDispatcher ([candFalse0] ++ candTrueX1 :: []) [5] [] = .ok (some ("X")) :=
  call_returns_first_accepted_candidate [candFalse0] [] candTrueX1 [5] [] 5
    (some ("X")) (some ("X"))
    (by simp [candFalse0, candTrueX1])
    rfl
    (by intro g hg; simp at hg; subst hg; exact Or.inl rfl)
    (by intro g hg; simp at hg; subst hg; exact Or.inl rfl)
    rfl rfl rfl

/-- C2: in both engine flavors, a matched candidate whose implementation
raises the Continuation Signal is skipped — the call behaves exactly as if
resolution had started at the next candidate — the Continuation Signal is
never the outcome of a call, and a registry in which every candidate is
passed over (predicate false, predicate declines, or implementation
declines) yields the absent result `None`. -/
theorem declined_candidate_skipped_and_signal_never_surfaced {α κ β : Type}
    (f : DispatchedCallable α κ β) (rest : List (DispatchedCallable α κ β))
    (args : List α) (kwargs : List (String × κ)) (a0 : α)
    (h0 : args.head? = some a0)
    (hv : f.validate a0 = .ok true)
    (hdD : f.func args kwargs = .error .nextDispatch)
    (hdM : f.func args (stripKwargs f kwargs) = .error .nextDispatch) :
    dynamicDispatcher (f :: rest) args kwargs = dynamicDispatcher rest args kwargs
    ∧ metaDynamicDispatcher (f :: rest) args kwargs = metaDynamicDispatcher rest args kwargs
    ∧ (∀ (reg : List (DispatchedCallable α κ β)) (ar : List α) (kw : List (String × κ)),
        dynamicDispatcher reg ar kw ≠ .error .nextDispatch
        ∧ metaDynamicDispatcher reg ar kw ≠ .error .nextDispatch)
    ∧ (∀ (reg : List (DispatchedCallable α κ β)) (ar : List α) (kw : List (String × κ)) (a : α),
        ar.head? = some a → (∀ g ∈ reg, skipsDispatch g ar kw a) →
        dynamicDispatcher reg ar kw = .ok none)
    ∧ (∀ (reg : List (DispatchedCallable α κ β)) (ar : List α) (kw : List (String × κ)) (a : α),
        ar.head? = some a → (∀ g ∈ reg, skipsMeta g ar kw a) →
        metaDynamicDispatcher reg ar kw = .ok none) :=
  ⟨dispatch_cons_skip f rest args kwargs a0 h0 (Or.inr (Or.inr ⟨hv, hdD⟩)),
   meta_cons_skip f rest args kwargs a0 h0 (Or.inr (Or.inr ⟨hv, hdM⟩)),
   fun reg ar kw => ⟨dispatch_never_next reg ar kw, meta_never_next reg ar kw⟩,
   fun reg ar kw a ha hall => dispatch_all_skip reg ar kw a ha hall,
   fun reg ar kw a ha hall => meta_all_skip reg ar kw a ha hall⟩

/-- Witness for C2 at the example of the claim: a candidate at priority 0
that matches and declines followed by a candidate at priority 1 returning
Y; both engine flavors skip the declined candidate and return Y, and the
Continuation Signal never reaches the caller. -/
theorem declined_candidate_skipped_witness :
    dynamicDispatcher [candDecline0, candTrueY1] [5] [] = .ok (some ("Y"))
    ∧ metaDynamicDispatcher [candDecline0, candTrueY1] [5] [] = .ok (some ("Y"))
    ∧ dynamicDispatcher [candDecline0, candTrueY1] [5] [] ≠ .error .nextDispatch
    ∧ dynamicDispatcher [candDecline0] [5] [] = .ok none :=
  ⟨((declined_candidate_skipped_and_signal_never_surfaced candDecline0 [candTrueY1]
      [5] [] 5 rfl rfl rfl rfl).1).trans rfl,
   ((declined_candidate_skipped_and_signal_never_surfaced candDecline0 [candTrueY1]
      [5] [] 5 rfl rfl rfl rfl).2.1).trans rfl,
   ((declined_candidate_skipped_and_signal_never_surfaced candDecline0 [candTrueY1]
      [5] [] 5 rfl rfl rfl rfl).2.2.1 [candDecline0, candTrueY1] [5] []).1,
   (declined_candidate_skipped_and_signal_never_surfaced candDecline0 [candTrueY1]
      [5] [] 5 rfl rfl rfl rfl).2.2.2.1 [candDecline0] [5] [] 5 rfl
      (by intro g hg; simp at hg; subst hg; exact Or.inr (Or.inr ⟨rfl, rfl⟩))⟩

/-- C10: a call with zero positional arguments on an engine with a
non-empty registry fails with `IndexError` from evaluating `args[0]`,
whatever the candidates are — in particular no predicate is consulted,
since the outcome does not depend on the registry content — while an engine
with an empty registry returns the absent result; a factory-built engine is
never empty, because constructing it installs the wildcard fallback at the
sentinel priority. -/
theorem zero_args_index_error {α κ β : Type}
    (reg : List (DispatchedCallable α κ β)) (kwargs : List (String × κ))
    (hne : reg ≠ []) :
    dynamicDispatcher reg [] kwargs = .error .indexError
    ∧ metaDynamicDispatcher reg [] kwargs = .error .indexError
    ∧ dynamicDispatcher ([] : List (DispatchedCallable α κ β)) [] kwargs = .ok none
    ∧ metaDynamicDispatcher ([] : List (DispatchedCallable α κ β)) [] kwargs = .ok none
    ∧ ∀ (imp : ImportTable) (b : PyFunc) (ukw : List (String × PyVal)),
        registerWrap (create_default_metadispatcher imp) [] (some (.callablePred pyTrue))
          (some sysMaxsize) b = .ok [fallbackCandidate b]
        ∧ dynamicDispatcher [fallbackCandidate b] [] ukw = .error .indexError := by
  refine ⟨?_, ?_, rfl, rfl, fun imp b ukw => ⟨rfl, rfl⟩⟩
  · match reg, hne with
    | f :: rest, _ => rfl
  · match reg, hne with
    | f :: rest, _ => rfl

/-- Witness for C10: a one-candidate registry called with no positional
argument raises `IndexError` in both flavors, the empty registry returns
the absent result, and the factory-installed fallback registry is the
non-empty singleton. -/
theorem zero_args_index_error_witness :
    dynamicDispatcher [candTrueX1] [] [] = .error .indexError
    ∧ metaDynamicDispatcher [candTrueX1] [] [] = .error .indexError
    ∧ dynamicDispatcher ([] : List (DispatchedCallable Nat Nat String)) [] [] = .ok none
    ∧ metaDynamicDispatcher ([] : List (DispatchedCallable Nat Nat String)) [] [] = .ok none
    ∧ registerWrap (create_default_metadispatcher impNone) [] (some (.callablePred pyTrue))
        (some sysMaxsize) noParamFunc = .ok [fallbackCandidate noParamFunc]
    ∧ dynamicDispatcher [fallbackCandidate noParamFunc] [] [] = .error .indexError :=
  have h := zero_args_index_error [candTrueX1] [] (by simp)
  ⟨h.1, h.2.1, h.2.2.1, h.2.2.2.1,
   (h.2.2.2.2 impNone noParamFunc []).1, (h.2.2.2.2 impNone noParamFunc []).2⟩

/-- C3: when every registered priority is representable (at most
`sys.maxsize`, as the claim itself defines the sentinel to be the maximum
representable priority), the source rule `_determine_priority` — maximum
over priorities strictly below the sentinel, plus one — coincides with the
specification rule `maxP + 1` over priorities that are not the sentinel,
with `maxP = -1` when no such candidate exists; an empty registry and a
registry holding only the sentinel fallback both resolve to 0, and an
explicit priority is returned verbatim. -/
theorem default_priority_rule {α κ β : Type}
    (reg : List (DispatchedCallable α κ β)) (p : Int)
    (hb : ∀ g ∈ reg, g.priority ≤ sysMaxsize) :
    determinePriority reg none = resolvePrioritySpec reg
    ∧ determinePriority ([] : List (DispatchedCallable α κ β)) none = 0
    ∧ (∀ b : PyFunc, determinePriority [fallbackCandidate b] none = 0)
    ∧ determinePriority reg (some p) = p := by
  refine ⟨?_, rfl, fun b => rfl, rfl⟩
  have hfil : (reg.map (fun f => f.priority)).filter (fun q => decide (q < sysMaxsize))
      = (reg.map (fun f => f.priority)).filter (fun q => q != sysMaxsize) := by
    apply List.filter_congr
    intro a ha
    obtain ⟨g, hg, rfl⟩ := List.mem_map.mp ha
    by_cases he : g.priority = sysMaxsize
    · simp [he]
    · simp [he, lt_of_le_of_ne (hb g hg) he]
  simp only [determinePriority, resolvePrioritySpec, hfil]

/-- Witness for C3: a registry with priorities 0 and 1 resolves the next
default priority to 2 under both the source rule and the specification
rule; the empty registry and the sentinel-only registry resolve to 0, and
an explicit priority 7 is used verbatim. -/
theorem default_priority_rule_witness :
    determinePriority [candFalse0, candTrueX1] none = resolvePrioritySpec [candFalse0, candTrueX1]
    ∧ determinePriority ([] : List (DispatchedCallable Nat Nat String)) none = 0
    ∧ determinePriority [fallbackCandidate noParamFunc] none = 0
    ∧ determinePriority [candFalse0, candTrueX1] (some 7) = 7 :=
  have h := default_priority_rule [candFalse0, candTrueX1] 7
    (by intro g hg; simp [candFalse0, candTrueX1] at hg
        rcases hg with rfl | rfl <;> simp [candFalse0, candTrueX1, sysMaxsize])
  ⟨h.1, h.2.1, h.2.2.1 noParamFunc, h.2.2.2⟩

theorem mem_sortedAdd {α κ β : Type} (l : List (DispatchedCallable α κ β))
    (c y : DispatchedCallable α κ β) :
    y ∈ sortedAdd l c ↔ y ∈ l ∨ y = c := by
  induction l with
  | nil => simp [sortedAdd]
  | cons x xs ih =>
    by_cases h : c.priority < x.priority
    · simp [sortedAdd, h]
      tauto
    · simp [sortedAdd, h, ih]
      tauto

theorem sortedAdd_pairwise {α κ β : Type} (l : List (DispatchedCallable α κ β))
    (c : DispatchedCallable α κ β)
    (hl : l.Pairwise (fun a b => a.priority ≤ b.priority)) :
    (sortedAdd l c).Pairwise (fun a b => a.priority ≤ b.priority) := by
  induction l with
  | nil => simp [sortedAdd]
  | cons x xs ih =>
    rw [List.pairwise_cons] at hl
    by_cases h : c.priority < x.priority
    · simp only [sortedAdd, if_pos h]
      refine List.pairwise_cons.mpr ⟨?_, List.pairwise_cons.mpr hl⟩
      intro y hy
      rcases List.mem_cons.mp hy with rfl | hy'
      · exact le_of_lt h
      · exact le_trans (le_of_lt h) (hl.1 y hy')
    · simp only [sortedAdd, if_neg h]
      refine List.pairwise_cons.mpr ⟨?_, ih hl.2⟩
      intro y hy
      rcases (mem_sortedAdd xs c y).mp hy with hy' | rfl
      · exact hl.1 y hy'
      · exact le_of_not_lt h

theorem sortedAdd_filter_stable {α κ β : Type} (l : List (DispatchedCallable α κ β))
    (c : DispatchedCallable α κ β) (q : Int)
    (hl : l.Pairwise (fun a b => a.priority ≤ b.priority)) :
    (sortedAdd l c).filter (fun g => g.priority == q)
      = l.filter (fun g => g.priority == q)
        ++ (if c.priority == q then [c] else []) := by
  induction l with
  | nil => by_cases hc : c.priority == q <;> simp [sortedAdd, hc]
  | cons x xs ih =>
    rw [List.pairwise_cons] at hl
    by_cases h : c.priority < x.priority
    · simp only [sortedAdd, if_pos h]
      by_cases hc : c.priority = q
      · have hnone : ∀ g ∈ x :: xs, ¬(g.priority == q) = true := by
          intro g hg
          have hxg : x.priority ≤ g.priority := by
            rcases List.mem_cons.mp hg with rfl | hg'
            · exact le_refl _
            · exact hl.1 g hg'
          have : q < g.priority := lt_of_lt_of_le (hc ▸ h) hxg
          simp [ne_of_gt this]
        have hx : ¬x.priority = q := by simpa using hnone x (by simp)
        have hxs : List.filter (fun g => g.priority == q) xs = [] :=
          List.filter_eq_nil_iff.mpr (fun g hg => hnone g (by simp [hg]))
        simp only [List.filter_cons, hc]
        simp [hx, hxs]
      · simp only [List.filter_cons]
        simp [hc]
    · simp only [sortedAdd, if_neg h]
      simp only [List.filter_cons]
      by_cases hx : x.priority == q <;> simp [hx, ih hl.2]

theorem foldl_sortedAdd_invariant {α κ β : Type} (cs acc : List (DispatchedCallable α κ β))
    (q : Int) (hacc : acc.Pairwise (fun a b => a.priority ≤ b.priority)) :
    (cs.foldl sortedAdd acc).Pairwise (fun a b => a.priority ≤ b.priority)
    ∧ (cs.foldl sortedAdd acc).filter (fun g => g.priority == q)
      = acc.filter (fun g => g.priority == q) ++ cs.filter (fun g => g.priority == q) := by
  induction cs generalizing acc with
  | nil => simp [hacc]
  | cons c cs ih =>
    have h1 := sortedAdd_pairwise acc c hacc
    obtain ⟨hp, hf⟩ := ih (sortedAdd acc c) h1
    refine ⟨hp, ?_⟩
    rw [List.foldl_cons] at *
    rw [hf, sortedAdd_filter_stable acc c q hacc]
    simp only [List.filter_cons]
    by_cases hc : c.priority == q <;> simp [hc]

/-- C4: a registry grown from the empty registry by any sequence of
`SortedKeyList.add` insertions is in non-decreasing priority order, and for
every priority value the candidates carrying it appear in exactly their
registration order; the statement quantifies over every registration
sequence `cs`, so the invariant holds after each individual add (every
prefix of a sequence is itself a sequence). -/
theorem registry_sorted_and_stable {α κ β : Type}
    (cs : List (DispatchedCallable α κ β)) (q : Int) :
    (cs.foldl sortedAdd []).Pairwise (fun a b => a.priority ≤ b.priority)
    ∧ (cs.foldl sortedAdd []).filter (fun g => g.priority == q)
      = cs.filter (fun g => g.priority == q) := by
  obtain ⟨h1, h2⟩ := foldl_sortedAdd_invariant cs [] q List.Pairwise.nil
  exact ⟨h1, by simpa using h2⟩

/-- Counterexample to C5: the engine built by `dispatch` (the permissive,
factory-built flavor, core.py lines 209-218) forwards its keyword arguments
unchanged — a matched candidate that does not declare `_globals` still
receives it — while the engine built by `metadispatch` (core.py lines
43-55) is the one that strips it.  The probe candidate returns the keyword
arguments it received. -/
theorem factory_engine_does_not_strip_globals :
    dynamicDispatcher [kwProbeCand] [0] [("_globals", 7)] = .ok (some [("_globals", 7)])
    ∧ metaDynamicDispatcher [kwProbeCand] [0] [("_globals", 7)] = .ok (some []) :=
  ⟨rfl, rfl⟩

/-- C5 as amended: the reserved `_globals` keyword argument is stripped by
the strict-flavor engine built by `metadispatch` (the flavor hosting the
Check Compiler), not by the factory-built engine: `metadispatch` strips it
before forwarding to a matched implementation that does not declare a
`_globals` parameter and passes it through to one that does, while the
factory-built `dispatch` engine forwards the keyword arguments unchanged in
every case. -/
theorem metadispatch_strips_globals {α κ β : Type}
    (f : DispatchedCallable α κ β) (rest : List (DispatchedCallable α κ β))
    (args : List α) (kwargs : List (String × κ)) (a0 : α) (r r' : Option β)
    (h0 : args.head? = some a0)
    (hv : f.validate a0 = .ok true)
    (hnd : f.params.contains ("_globals") = false)
    (hr : f.func args (kwargs.filter (fun kv => kv.1 != "_globals")) = .ok r)
    (hr' : f.func args kwargs = .ok r') :
    metaDynamicDispatcher (f :: rest) args kwargs = .ok r
    ∧ dynamicDispatcher (f :: rest) args kwargs = .ok r'
    ∧ ∀ (g : DispatchedCallable α κ β) (grest : List (DispatchedCallable α κ β))
        (gr : Option β), g.params.contains ("_globals") = true →
        g.validate a0 = .ok true → g.func args kwargs = .ok gr →
        metaDynamicDispatcher (g :: grest) args kwargs = .ok gr := by
  refine ⟨?_, ?_, ?_⟩
  · have hnd2 : ("_globals" : String) ∉ f.params := by simpa using hnd
    have hs : stripKwargs f kwargs = kwargs.filter (fun kv => kv.1 != "_globals") := by
      simp [stripKwargs, hnd2]
    simp [metaDynamicDispatcher, h0, hv, hs, hr]
  · simp [dynamicDispatcher, h0, hv, hr']
  · intro g grest gr hd hgv hgr
    have hd2 : ("_globals" : String) ∈ g.params := by simpa using hd
    have hs : stripKwargs g kwargs = kwargs := by
      simp [stripKwargs, hd2]
    simp [metaDynamicDispatcher, h0, hgv, hs, hgr]

/-- Witness for the amended C5: with the probe candidate (which does not
declare `_globals`) the metadispatch flavor forwards the stripped keyword
arguments and the dispatch flavor forwards them unchanged; a probe that
declares `_globals` receives them unchanged from the metadispatch flavor. -/
theorem metadispatch_strips_globals_witness :
    metaDynamicDispatcher [kwProbeCand] [0] [("_globals", 7)] = .ok (some [])
    ∧ dynamicDispatcher [kwProbeCand] [0] [("_globals", 7)] = .ok (some [("_globals", 7)])
    ∧ metaDynamicDispatcher
        [{ kwProbeCand with params := ["x", "_globals"] }] [0] [("_globals", 7)]
        = .ok (some [("_globals", 7)]) :=
  have h := metadispatch_strips_globals kwProbeCand [] [0] [("_globals", 7)] 0
    (some []) (some [("_globals", 7)]) rfl rfl rfl rfl rfl
  ⟨h.1, h.2.1,
   h.2.2 { kwProbeCand with params := ["x", "_globals"] } [] (some [("_globals", 7)])
     rfl rfl rfl⟩

/-- Counterexample to C6: the import-path checker compiled for the
specification string `m.T` is not true for every instance of `T` and its
subtypes — `valS` is an instance of the subclass `S` of `T`, but because
`S` lives in another module its type representation does not contain the
package segment `m`, so the cheap textual rejection returns false before
the import is even attempted. -/
theorem import_checker_misses_foreign_subclass :
    runCompiled (compileCheck impTableMT (.str ("m.T")) emptyScope) valS = .ok false
    ∧ isinstance valS tyT = true :=
  ⟨rfl, rfl⟩

/-- C6 as amended: for a name-string specification that is unresolvable in
the empty scope but importable as module plus attribute, builder 3 declines
(the compiler output is exactly the builder-4 checker) and the builder-4
predicate is true exactly for the values that pass the cheap textual
rejection — the representation of their runtime type contains the top-level
segment of the module path — and are instances of `T` or one of its
subtypes; instances of subtypes whose type representation lacks that
segment are rejected. -/
theorem forward_ref_falls_through_to_import_builder
    (imp : ImportTable) (s modname ext : String) (mod : String → Option PyType)
    (T : PyType)
    (hsplit : splitext s = (modname, ext))
    (himp : imp modname = some mod)
    (hattr : mod (ext.drop 1) = some T) :
    compileCheck imp (.str s) emptyScope = .ok (some (importViaStrChecker imp s))
    ∧ ∀ x : PyVal, importViaStrChecker imp s x
        = .ok (pyIn (String.mk (firstSegment modname.data)) x.type.reprStr
            && isinstance x T) := by
  refine ⟨rfl, fun x => ?_⟩
  simp only [importViaStrChecker, hsplit]
  by_cases hpy : pyIn (String.mk (firstSegment modname.data)) x.type.reprStr
  · simp [hpy, himp, hattr]
  · simp [hpy]

/-- Witness for the amended C6: compiling `m.T` in the empty scope falls
through builder 3 to builder 4, and the resulting checker accepts the
direct instance `valT` (whose type representation contains `m`). -/
theorem forward_ref_falls_through_witness :
    compileCheck impTableMT (.str ("m.T")) emptyScope
      = .ok (some (importViaStrChecker impTableMT ("m.T")))
    ∧ importViaStrChecker impTableMT ("m.T") valT
      = .ok (pyIn (String.mk (firstSegment ("m").data)) valT.type.reprStr
          && isinstance valT tyT) :=
  have h := forward_ref_falls_through_to_import_builder impTableMT ("m.T") ("m") (".T")
    (fun a => if a = "T" then some tyT else none) tyT rfl rfl rfl
  ⟨h.1, h.2 valT⟩

/-- Counterexample to C7: registering with no explicit check an
implementation that declares no parameters at all does not raise the
configuration `TypeError` of core.py lines 193-197 — `list(
inspect.signature(func).parameters.values())[0]` raises `IndexError`
first. -/
theorem register_no_params_raises_index_error :
    registerWrap (create_default_metadispatcher impNone) [] none none noParamFunc
      = .error .indexError
    ∧ PyExc.indexError ≠ PyExc.typeError cfgMsg :=
  ⟨rfl, by simp⟩

/-- C7 as amended: registering without an explicit check raises
synchronously at registration time — before the implementation or any
predicate is invoked, since the outcome does not depend on the body, the
compiler registry or the engine registry — the configuration `TypeError`
when the implementation declares a first parameter without an annotation,
and an `IndexError` (not the configuration error) when the implementation
declares no parameters at all. -/
theorem register_requires_check_or_annotation
    (metaReg : List MCand) (registry : List UCand) (prio : Option Int)
    (names : List String) (restAnn : List (Option CheckSpec)) (gs : PyScope)
    (body : List PyVal → List (String × PyVal) → Except PyExc (Option PyVal)) :
    registerWrap metaReg registry none prio
      { paramNames := names, paramAnnotations := none :: restAnn,
        globalsScope := gs, body := body } = .error (.typeError cfgMsg)
    ∧ registerWrap metaReg registry none prio
      { paramNames := names, paramAnnotations := [],
        globalsScope := gs, body := body } = .error .indexError :=
  ⟨rfl, rfl⟩

/-- C8: once builder 4 has produced its checker and a value passes the
cheap textual rejection, a missing module surfaces as `ImportError` and a
missing attribute as `AttributeError`; both propagate unchanged through the
`dispatch` call loop that evaluates the checker as a predicate, and the
checker can never raise the Continuation Signal, for any import facility,
specification string and value. -/
theorem import_failure_is_terminal
    (imp : ImportTable) (s : String) (x : PyVal)
    (hcheap : pyIn (String.mk (firstSegment (splitext s).1.data)) x.type.reprStr = true) :
    (imp (splitext s).1 = none →
      importViaStrChecker imp s x = .error .importError
      ∧ ∀ (impl : List PyVal → List (String × PyVal) → Except PyExc (Option PyVal))
          (prio : Int) (ps : List String) (rest : List UCand)
          (moreArgs : List PyVal) (kw : List (String × PyVal)),
          dynamicDispatcher
            ({ func := impl, validate := importViaStrChecker imp s,
               priority := prio, params := ps } :: rest) (x :: moreArgs) kw
            = .error .importError)
    ∧ (∀ mod : String → Option PyType, imp (splitext s).1 = some mod →
        mod ((splitext s).2.drop 1) = none →
        importViaStrChecker imp s x = .error .attributeError)
    ∧ (∀ (imp2 : ImportTable) (s2 : String) (y : PyVal),
        importViaStrChecker imp2 s2 y ≠ .error .nextDispatch) := by
  refine ⟨fun hm => ?_, fun mod hm ha => ?_, fun imp2 s2 y => ?_⟩
  · have hchk : importViaStrChecker imp s x = .error .importError := by
      simp [importViaStrChecker, hcheap, hm]
    refine ⟨hchk, fun impl prio ps rest moreArgs kw => ?_⟩
    simp [dynamicDispatcher, hchk]
  · simp [importViaStrChecker, hcheap, hm, ha]
  · by_cases hp : pyIn (String.mk (firstSegment (splitext s2).1.data)) y.type.reprStr = false
    · simp [importViaStrChecker, hp]
    · cases him : imp2 (splitext s2).1 with
      | none => simp [importViaStrChecker, hp, him]
      | some mod =>
        cases ha : mod ((splitext s2).2.drop 1) with
        | none => simp [importViaStrChecker, hp, him, ha]
        | some T2 => simp [importViaStrChecker, hp, him, ha]

/-- Witness for C8: with the direct instance `valT` (which passes the cheap
textual rejection for package `m`), compiling `m.T` against an empty import
facility makes the checker raise `ImportError`, never the Continuation
Signal, and a facility exposing module `m` without attribute `X` makes the
checker for `m.X` raise `AttributeError`; the `ImportError` also propagates
through a `dispatch` engine using the checker as a predicate. -/
theorem import_failure_is_terminal_witness :
    importViaStrChecker impNone ("m.T") valT = .error .importError
    ∧ importViaStrChecker impNone ("m.T") valT ≠ .error .nextDispatch
    ∧ importViaStrChecker impTableMT ("m.X") valT = .error .attributeError
    ∧ dynamicDispatcher
        [({ func := fun _ _ => .ok none, validate := importViaStrChecker impNone ("m.T"),
            priority := 0, params := [] } : UCand)] [valT]
        ([] : List (String × PyVal)) = .error .importError :=
  have h := import_failure_is_terminal impNone ("m.T") valT (by decide)
  have h2 := import_failure_is_terminal impTableMT ("m.X") valT (by decide)
  ⟨(h.1 rfl).1, h.2.2 impNone ("m.T") valT,
   h2.2.1 (fun a => if a = "T" then some tyT else none) rfl rfl,
   (h.1 rfl).2 (fun _ _ => .ok none) 0 [] [] [] []⟩

/-- C9: for a specification that is a plain callable predicate — callable
but neither a class, nor a generic alias, nor a string — the Check Compiler
returns exactly that callable, unchanged, as the compiled predicate,
whatever the import facility and resolution scope. -/
theorem callable_spec_compiles_to_itself (imp : ImportTable) (p : PyChecker)
    (scope : PyScope) :
    compileCheck imp (.callablePred p) scope = .ok (some p) :=
  rfl
